import Mathlib

/-!
AcroChem inventory ledger: verification of the specification against `logic.py`.

Shallow embedding of the stock-ledger engine of `src/logic.py` (module
`logic`).  SQLite rows become Lean structures, `REAL` columns become `ℚ`
(exact arithmetic), the database becomes an explicit `DB` state threaded
through the operations, and Python exceptions become `Except`.

Python module semantics matter throughout this file: `logic.py` is a
concatenation of several file versions, and at runtime the *last*
module-level binding of a name wins, while function bodies resolve global
names at call time.  Three such rebindings shape the runtime behaviour
modelled here:

- `import datetime` at line 905 (executed after the
  `from datetime import datetime` of lines 7 and 681) leaves `datetime`
  bound to the datetime *module*, which has no `now` attribute.  So
  `datetime.now()` raises `AttributeError` at line 194 (`post_stock`) and
  line 299 (`post_stocktake`) on every call, before any INSERT: no ledger
  row is ever written by `post_stock`, `receive_purchase`, `issue_stock`
  or `post_stocktake`.  Only `post_stock_adjustment`, which uses
  `datetime.date.today()` (line 1039, valid for the module), can write.
- `from db import get_conn` at line 630 makes `db.get_conn` the effective
  connection factory; it executes `PRAGMA foreign_keys = ON`, so the
  `stock_ledger` foreign key on `material_code` (line 85) makes
  `post_stock_adjustment`'s INSERT raise `IntegrityError` for any code
  not present in `materials`.
- `delete_material` is bound twice; the later, unguarded definition
  (line 483) shadows the guarded one (line 149).  Both are modelled and
  the effective one keeps the source name.
-/

namespace AcroChem

/-- One row of the `stock_ledger` table (schema in `init_db`, logic.py
lines 72-87): id, date, ref_type, ref_no, material_code, qty, uom,
qty_stock, cost_per_stock, total_cost, note. -/
structure LedgerEntry where
  id : Nat
  date : String
  ref_type : String
  ref_no : Option String
  material_code : String
  qty : ℚ
  uom : String
  qty_stock : ℚ
  cost_per_stock : ℚ
  total_cost : ℚ
  note : String
deriving Repr, DecidableEq

/-- One row of the `stocktake` table (logic.py lines 90-100). -/
structure StocktakeRow where
  date : String
  material_code : String
  counted_qty_stock : ℚ
  system_qty_stock : ℚ
  variance : ℚ
  note : String
deriving Repr, DecidableEq

/-- The mutable database state: the `materials` table (as the list of
material codes present), the `formulas` table (as the list of material
codes referenced by formula lines - the only aspect `delete_material`
inspects), the append-only `stock_ledger`, and the `stocktake` table.
Rows are kept in insertion (= id) order. -/
structure DB where
  materials : List String
  formulas : List String
  ledger : List LedgerEntry
  stocktake : List StocktakeRow
deriving Repr, DecidableEq

def DB.empty : DB := ⟨[], [], [], []⟩

/-- Python exceptions surfaced by the engine: `insufficientStock` and
`invalidArgument` are the two `raise ValueError(...)` families;
`attributeError` is the `AttributeError` raised by `datetime.now()` under
the module rebinding of logic.py line 905; `integrityError` is
sqlite3's `IntegrityError` from the foreign-keys-ON connection
(db.get_conn, effective per logic.py line 630). -/
inductive StockError where
  | insufficientStock : StockError
  | invalidArgument : String → StockError
  | attributeError : StockError
  | integrityError : StockError
deriving Repr, DecidableEq

/-- SQL `SELECT COALESCE(SUM(f), 0) FROM stock_ledger WHERE material_code=?`:
the aggregate folds `+` over the rows selected by the WHERE clause. -/
def sqlSum (f : LedgerEntry → ℚ) (m : String) (ledger : List LedgerEntry) : ℚ :=
  (ledger.filter fun e => e.material_code == m).foldl (fun acc e => acc + f e) 0

/-- Model of `_current_stock` (logic.py lines 172-182): sums `qty_stock`
and `total_cost` over the material's ledger rows;
`avg_cost = cost / qty if qty != 0 else 0`.  A pure read (its SELECT is
unaffected by the datetime and foreign-key issues). -/
def _current_stock (ledger : List LedgerEntry) (m : String) : ℚ × ℚ :=
  let qty := sqlSum (fun e => e.qty_stock) m ledger
  let cost := sqlSum (fun e => e.total_cost) m ledger
  (qty, if qty ≠ 0 then cost / qty else 0)

/-- Model of `post_stock` (logic.py lines 185-211) as it executes.  Its
first statement is `date = datetime.now().isoformat()` (line 194); with
`datetime` rebound to the module by line 905 this raises `AttributeError`
on every call, before the INSERT of lines 199-211 is reached.  The
function therefore fails unconditionally and never appends a ledger row
(the INSERT, were it reachable, would write `qty_stock = qty` and
`total_cost = qty * cost_per_stock`). -/
def post_stock (db : DB) (material_code : String) (qty : ℚ) (uom : String)
    (cost_per_stock : ℚ) (ref_type : String) (ref_no : Option String)
    (note : String) : Except StockError DB :=
  Except.error StockError.attributeError

/-- Model of `receive_purchase` (logic.py lines 214-223): computes
`cost_per_stock = total_cost / qty_stock if qty_stock else 0` (Python
truthiness: the guard is `qty_stock ≠ 0`; this line cannot fail), then
calls `post_stock`, which raises `AttributeError` on every call - so
every receive fails and appends nothing. -/
def receive_purchase (db : DB) (material_code : String)
    (qty_stock total_cost : ℚ) (ref_no : Option String) : Except StockError DB :=
  let cost_per_stock := if qty_stock ≠ 0 then total_cost / qty_stock else 0
  post_stock db material_code qty_stock "STOCK" cost_per_stock "PURCHASE" ref_no ""

/-- Model of `issue_stock` (logic.py lines 226-239): reads the current
balance, raises `ValueError("Insufficient stock")` when
`qty_stock > current_qty` (line 230, BEFORE `post_stock` is called, so
this error path is live), otherwise calls `post_stock`, which raises
`AttributeError`.  Either way no ledger row is written. -/
def issue_stock (db : DB) (material_code : String) (qty_stock : ℚ)
    (ref_type : String) (ref_no : Option String) : Except StockError DB :=
  let cs := _current_stock db.ledger material_code
  if qty_stock > cs.1 then Except.error StockError.insufficientStock
  else post_stock db material_code (-qty_stock) "STOCK" cs.2 ref_type ref_no ""

/-- One `GROUP BY material_code` row of `stock_on_hand` (logic.py lines
242-254): `(SUM(qty_stock), SUM(total_cost), CASE WHEN SUM(qty_stock) != 0
THEN SUM(total_cost)/SUM(qty_stock) ELSE 0 END)`.  A pure read. -/
def stock_on_hand_row (ledger : List LedgerEntry) (m : String) : ℚ × ℚ × ℚ :=
  let q := sqlSum (fun e => e.qty_stock) m ledger
  let c := sqlSum (fun e => e.total_cost) m ledger
  (q, c, if q ≠ 0 then c / q else 0)

/-- Model of `post_stocktake` (logic.py lines 286-316) as it executes: it
reads the balance (line 287, harmless) and then builds the INSERT
parameter tuple, whose first element `datetime.now().isoformat()`
(line 299) raises `AttributeError` under the module rebinding of line 905,
before the stocktake INSERT executes.  The variance posting of lines
308-316 is dead code: no stocktake row and no ledger row is ever
written. -/
def post_stocktake (db : DB) (material_code : String)
    (counted_qty_stock : ℚ) (note : String) : Except StockError DB :=
  Except.error StockError.attributeError

/-- First definition of `delete_material` (logic.py lines 149-165):
"HARD DELETE - allowed only if no ledger or formula references exist".
In the Python module this binding is SHADOWED by the later definition
below, so it is never the one called at runtime. -/
def delete_material_guarded (db : DB) (material_code : String) :
    Except String DB :=
  if 0 < (db.ledger.filter fun e => e.material_code == material_code).length then
    Except.error "Material has stock movements and cannot be deleted"
  else if 0 < (db.formulas.filter fun c => c == material_code).length then
    Except.error "Material used in formulas and cannot be deleted"
  else
    Except.ok { db with materials := db.materials.filter fun c => !(c == material_code) }

/-- Second definition of `delete_material` (logic.py lines 483-493): a bare
`DELETE FROM materials WHERE material_code = ?` with no referential checks.
Being the later module-level binding of the name, this is the effective
`delete_material` at runtime. -/
def delete_material (db : DB) (material_code : String) : DB :=
  { db with materials := db.materials.filter fun c => !(c == material_code) }

/-- The latest `stock_ledger` row for a material
(`ORDER BY id DESC LIMIT 1`, equivalently `MAX(id)` per material): rows are
kept in id order, so this is the last matching row. -/
def latestRow (ledger : List LedgerEntry) (code : String) : Option LedgerEntry :=
  (ledger.filter fun e => e.material_code == code).getLast?

/-- Rounding to `d` decimal places, modelling pandas `.round(d)` /
SQL `ROUND`.  (Pandas rounds ties half-to-even while `round` here rounds
ties half-up; the difference arises only at exact ties, which none of the
statements below exercise - every use is guarded by a fixed-point
hypothesis or applied to tie-free values.) -/
def roundTo (d : Nat) (x : ℚ) : ℚ := (round (x * 10 ^ d) : ℤ) / 10 ^ d

/-- One material's row of `get_stock_on_hand` (logic.py lines 928-981):
takes the LATEST ledger row per material (`MAX(id)`), keeps it only when
`ABS(qty_stock) > 0.00001`, and reports
`(qty_on_hand, avg_cost) = (qty_stock, cost_per_stock)` of that single
row, display-rounded to 4 resp. 6 decimals.  `none` means the material
does not appear in the view.  A pure read. -/
def get_stock_on_hand_row (ledger : List LedgerEntry) (m : String) :
    Option (ℚ × ℚ) :=
  match latestRow ledger m with
  | none => none
  | some l =>
    if (1 : ℚ) / 100000 < |l.qty_stock| then
      some (roundTo 4 l.qty_stock, roundTo 6 l.cost_per_stock)
    else none

/-- Characters Python `str.isspace()` treats as whitespace: ASCII
whitespace `\t \n \v \f \r` and space, the C1 controls `\x1c`-`\x1f` and
`\x85`, and the Unicode space separators. -/
def pyIsSpace (c : Char) : Bool :=
  let n := c.toNat
  n == 0x20 || (0x9 ≤ n && n ≤ 0xd) || (0x1c ≤ n && n ≤ 0x1f) ||
  n == 0x85 || n == 0xa0 || n == 0x1680 ||
  (0x2000 ≤ n && n ≤ 0x200a) ||
  n == 0x2028 || n == 0x2029 || n == 0x202f || n == 0x205f || n == 0x3000

/-- Python `str.strip()`: drop `pyIsSpace` characters from both ends
(structural recursion on the character list, so it evaluates in the
kernel). -/
def pyStrip (s : String) : String :=
  ⟨((s.data.dropWhile pyIsSpace).reverse.dropWhile pyIsSpace).reverse⟩

/-- The `prev_qty` read by `post_stock_adjustment`: the latest row's
`qty_stock`, 0 when the material has no row. -/
def prevQty (ledger : List LedgerEntry) (code : String) : ℚ :=
  ((latestRow ledger code).map (fun e => e.qty_stock)).getD 0

/-- The `prev_cost` read by `post_stock_adjustment`: the latest row's
`cost_per_stock`, 0 when the material has no row. -/
def prevAvg (ledger : List LedgerEntry) (code : String) : ℚ :=
  ((latestRow ledger code).map (fun e => e.cost_per_stock)).getD 0

/-- The `(move_cost, new_cost)` pair computed by `post_stock_adjustment`
(logic.py lines 1020-1037): an increase is costed at the caller's
`cost_per_uom` and blends the average (0 when `abs(new_qty) < 0.00001`);
a decrease is costed at `prev_cost` and keeps the average (0 when
`abs(new_qty) < 0.00001`). -/
def adjustmentCosts (qty_delta cost_per_uom prev_qty prev_cost : ℚ) : ℚ × ℚ :=
  let new_qty := prev_qty + qty_delta
  if 0 < qty_delta then
    let add_cost := cost_per_uom
    let move_cost := qty_delta * add_cost
    let new_cost := if |new_qty| < (1 : ℚ) / 100000 then 0
      else (prev_qty * prev_cost + qty_delta * add_cost) / new_qty
    (move_cost, new_cost)
  else
    let move_cost := qty_delta * prev_cost
    let new_cost := if |new_qty| < (1 : ℚ) / 100000 then 0 else prev_cost
    (move_cost, new_cost)

/-- Model of `post_stock_adjustment` (logic.py lines 983-1051), the only
function that writes `stock_ledger` rows at runtime (its timestamp is
`datetime.date.today()`, line 1039, valid under the module binding of
`datetime`).  Validates that the stripped code is nonempty and
`abs(qty_delta) >= 0.0000001`; reads the latest row's
`qty_stock`/`cost_per_stock` as the running balance (`prev_qty`,
`prev_cost`, both 0 when no row exists); on an increase the new average is
the weighted blend (or 0 when `abs(new_qty) < 0.00001`); on a decrease the
movement is costed at `prev_cost` and the average is kept (or reset to 0
when `abs(new_qty) < 0.00001`).  The INSERT runs on the effective
`db.get_conn` connection with `PRAGMA foreign_keys = ON` (rebinding at
line 630), so it raises `IntegrityError` unless the (stripped) code is
present in `materials`.  The inserted row stores `qty = qty_delta`,
`qty_stock = new_qty` (the running balance, NOT the delta),
`cost_per_stock = new_cost` and `total_cost = move_cost`. -/
def post_stock_adjustment (db : DB) (today code : String) (qty_delta : ℚ)
    (uom : String) (cost_per_uom : ℚ) (note : String) (ref_type : String)
    (ref_no : String) : Except StockError DB :=
  let code := pyStrip code
  if code = "" then Except.error (StockError.invalidArgument "code is required.")
  else if |qty_delta| < (1 : ℚ) / 10000000 then
    Except.error (StockError.invalidArgument "qty_delta cannot be zero.")
  else
    let prev_qty := prevQty db.ledger code
    let prev_cost := prevAvg db.ledger code
    let new_qty := prev_qty + qty_delta
    let mc := adjustmentCosts qty_delta cost_per_uom prev_qty prev_cost
    if code ∈ db.materials then
      Except.ok { db with ledger := db.ledger ++
        [{ id := db.ledger.length, date := today, ref_type, ref_no := some ref_no,
           material_code := code, qty := qty_delta, uom, qty_stock := new_qty,
           cost_per_stock := mc.2, total_cost := mc.1, note }] }
    else Except.error StockError.integrityError

/-- A serial receive/issue call, for stating properties over call
sequences.  `receive mc qty total ref` / `issue mc qty refType ref`. -/
inductive Op where
  | receive : String → ℚ → ℚ → Option String → Op
  | issue : String → ℚ → String → Option String → Op
deriving Repr, DecidableEq

/-- Serial execution of one call: a call that raises leaves the state
unchanged (both error paths fire before any INSERT). -/
def applyOp (db : DB) (op : Op) : DB :=
  match op with
  | Op.receive mc q t rn =>
    match receive_purchase db mc q t rn with
    | Except.ok db1 => db1
    | Except.error _ => db
  | Op.issue mc q rt rn =>
    match issue_stock db mc q rt rn with
    | Except.ok db1 => db1
    | Except.error _ => db

def applyOps (db : DB) (ops : List Op) : DB := ops.foldl applyOp db

/-- Phase 1 of `issue_stock`: the balance read.  In the source this runs on
its own sqlite connection (`get_conn().execute` inside `_current_stock`),
in a separate transaction from the later (attempted) INSERT. -/
def issue_read (ledger : List LedgerEntry) (material_code : String) : ℚ × ℚ :=
  _current_stock ledger material_code

/-- Phase 2 of `issue_stock`: the insufficient-stock check against the
(possibly stale) snapshot from phase 1, then the call to `post_stock` -
which raises `AttributeError` before any INSERT, so this phase can fail
in two ways but never commit. -/
def issue_commit (db : DB) (material_code : String) (qty_stock : ℚ)
    (ref_type : String) (ref_no : Option String) (snapshot : ℚ × ℚ) :
    Except StockError DB :=
  if qty_stock > snapshot.1 then Except.error StockError.insufficientStock
  else post_stock db material_code (-qty_stock) "STOCK" snapshot.2 ref_type ref_no ""

/-- The per-material running-balance discipline that
`post_stock_adjustment` maintains in the `qty_stock` column: each row of
the material's (id-ordered) rows carries the previous row's `qty_stock`
(starting from the accumulator) plus its own movement `qty`. -/
def isRunningBalance : ℚ → List LedgerEntry → Prop
  | _, [] => True
  | prev, e :: rest => e.qty_stock = prev + e.qty ∧ isRunningBalance e.qty_stock rest

/-- An empty database whose `materials` table contains "M" (so that
adjustments for "M" pass the foreign-key check). -/
def emptyWithM : DB := { DB.empty with materials := ["M"] }

/-- The state produced by `post_stock_adjustment emptyWithM "t" "M" 10
"STOCK" 5 "" "MANUAL" ""` (see `adjState10_reachable`): the only kind of
nonempty ledger reachable at runtime, with on-hand 10 at average cost 5
for "M". -/
def adjState10 : DB :=
  { materials := ["M"], formulas := [],
    ledger := [{ id := 0, date := "t", ref_type := "MANUAL", ref_no := some "",
                 material_code := "M", qty := 10, uom := "STOCK", qty_stock := 10,
                 cost_per_stock := 5, total_cost := 50, note := "" }],
    stocktake := [] }

/-- Two successive +5 adjustments for "M" at unit cost 2, starting from
`emptyWithM`: the canonical runtime-reachable ledger with two rows for one
material. -/
def adjTwice : Except StockError DB :=
  (post_stock_adjustment emptyWithM "t" "M" 5 "STOCK" 2 "" "MANUAL" "").bind
    (fun d1 => post_stock_adjustment d1 "t" "M" 5 "STOCK" 2 "" "MANUAL" "")

/-- The state after the first of the two +5 adjustments of `adjTwice`. -/
def adjMid : DB :=
  { materials := ["M"], formulas := [],
    ledger := [{ id := 0, date := "t", ref_type := "MANUAL", ref_no := some "",
                 material_code := "M", qty := 5, uom := "STOCK", qty_stock := 5,
                 cost_per_stock := 2, total_cost := 10, note := "" }],
    stocktake := [] }

/-- The state after both +5 adjustments of `adjTwice`: each row's
`qty_stock` holds the running balance (5, then 10), not the movement
delta. -/
def adjState2 : DB :=
  { materials := ["M"], formulas := [],
    ledger := [{ id := 0, date := "t", ref_type := "MANUAL", ref_no := some "",
                 material_code := "M", qty := 5, uom := "STOCK", qty_stock := 5,
                 cost_per_stock := 2, total_cost := 10, note := "" },
               { id := 1, date := "t", ref_type := "MANUAL", ref_no := some "",
                 material_code := "M", qty := 5, uom := "STOCK", qty_stock := 10,
                 cost_per_stock := 2, total_cost := 10, note := "" }],
    stocktake := [] }

/-- A `materials`/`stock_ledger` state with one referenced material, for
exercising `delete_material`. -/
def oneMovementDB : DB :=
  { materials := ["M"], formulas := [],
    ledger := [{ id := 0, date := "d", ref_type := "PURCHASE", ref_no := none,
                 material_code := "M", qty := 1, uom := "STOCK", qty_stock := 1,
                 cost_per_stock := 5, total_cost := 5, note := "" }],
    stocktake := [] }

/-- Faithfulness of the two-phase decomposition: serial `issue_stock` is
exactly read followed immediately by commit. -/
theorem issue_stock_eq_read_then_commit (db : DB) (mc : String) (q : ℚ)
    (rt : String) (rn : Option String) :
    issue_stock db mc q rt rn =
      issue_commit db mc q rt rn (issue_read db.ledger mc) := rfl

/-! Helper lemmas about the SQL aggregates. -/

theorem foldl_add_eq (f : LedgerEntry → ℚ) (l : List LedgerEntry) (a : ℚ) :
    l.foldl (fun acc e => acc + f e) a = a + (l.map f).sum := by
  induction l generalizing a with
  | nil => simp
  | cons x xs ih => simp [ih, add_assoc]

theorem sqlSum_eq_sum (f : LedgerEntry → ℚ) (m : String) (l : List LedgerEntry) :
    sqlSum f m l = ((l.filter fun e => e.material_code == m).map f).sum := by
  simp [sqlSum, foldl_add_eq]

/-! Helper lemmas about the running-balance discipline and the dead
write paths. -/

theorem getLast_map_comm (f : LedgerEntry → ℚ) (l : List LedgerEntry) :
    (l.map f).getLast? = l.getLast?.map f := by
  induction l with
  | nil => rfl
  | cons e t ih => cases t <;> simp_all

/-- Under the running-balance discipline the last row's `qty_stock` is the
accumulator plus the sum of the movement quantities: the latest-row
balance IS the specification's prior balance (sum of signed movement
quantities). -/
theorem isRunningBalance_getLastD (a : ℚ) (l : List LedgerEntry)
    (h : isRunningBalance a l) :
    ((l.map fun x => x.qty_stock).getLastD a) = a + ((l.map fun x => x.qty).sum) := by
  induction l generalizing a with
  | nil => simp [List.getLastD]
  | cons e t ih =>
    obtain ⟨h1, h2⟩ := h
    rw [List.map_cons, List.getLastD_cons, ih e.qty_stock h2, h1, List.map_cons,
      List.sum_cons]
    ring

theorem isRunningBalance_append (a : ℚ) (l : List LedgerEntry) (e : LedgerEntry)
    (h : isRunningBalance a l)
    (he : e.qty_stock = ((l.map fun x => x.qty_stock).getLastD a) + e.qty) :
    isRunningBalance a (l ++ [e]) := by
  induction l generalizing a with
  | nil => exact ⟨by simpa [List.getLastD] using he, trivial⟩
  | cons f t ih =>
    obtain ⟨h1, h2⟩ := h
    rw [List.map_cons, List.getLastD_cons] at he
    exact ⟨h1, ih f.qty_stock h2 he⟩

/-- `prevQty` equals the sum of the movement quantities whenever the
material's rows obey the running-balance discipline. -/
theorem prevQty_eq_sum_of_runningBalance (ledger : List LedgerEntry) (code : String)
    (h : isRunningBalance 0 (ledger.filter fun e => e.material_code == code)) :
    prevQty ledger code =
      ((ledger.filter fun e => e.material_code == code).map fun e => e.qty).sum := by
  have := isRunningBalance_getLastD 0 _ h
  rw [List.getLastD_eq_getLast?, getLast_map_comm] at this
  simpa [prevQty, latestRow] using this

/-- Shape of a successful `post_stock_adjustment`: it appends exactly one
row, for the stripped code, carrying the movement `qty = qty_delta` and
the running balance `qty_stock = prev_qty + qty_delta`. -/
theorem post_stock_adjustment_ok_shape (db : DB) (today code : String)
    (qty_delta : ℚ) (uom : String) (cost_per_uom : ℚ) (note rt rn : String)
    (db1 : DB)
    (hok : post_stock_adjustment db today code qty_delta uom cost_per_uom note rt rn
      = Except.ok db1) :
    ∃ e, db1.ledger = db.ledger ++ [e] ∧ e.material_code = pyStrip code ∧
      e.qty = qty_delta ∧
      e.qty_stock = prevQty db.ledger (pyStrip code) + qty_delta := by
  simp only [post_stock_adjustment] at hok
  split_ifs at hok with h1 h2 h3
  have h := Except.ok.inj hok
  subst h
  exact ⟨_, rfl, rfl, rfl, rfl⟩

/-- Appending one row that continues the running balance of its material
preserves the discipline of that material's filtered rows (and leaves the
other materials' rows untouched). -/
theorem filter_append_runningBalance (ledger : List LedgerEntry) (e : LedgerEntry)
    (m : String)
    (hrb : isRunningBalance 0 (ledger.filter fun x => x.material_code == m))
    (hq : e.material_code = m → e.qty_stock = prevQty ledger m + e.qty) :
    isRunningBalance 0 ((ledger ++ [e]).filter fun x => x.material_code == m) := by
  rw [List.filter_append]
  by_cases hm : e.material_code == m
  · have hmeq : e.material_code = m := by simpa using hm
    have hfe : [e].filter (fun x => x.material_code == m) = [e] := by
      simp [List.filter, hm]
    rw [hfe]
    refine isRunningBalance_append 0 _ _ hrb ?_
    rw [List.getLastD_eq_getLast?, getLast_map_comm]
    simpa [prevQty, latestRow] using hq hmeq
  · have hfe : [e].filter (fun x => x.material_code == m) = [] := by
      simp [List.filter, hm]
    rw [hfe, List.append_nil]
    exact hrb

/-- A successful `post_stock_adjustment` preserves the running-balance
discipline of every material's rows.  Together with
`prevQty_eq_sum_of_runningBalance` this shows that on every
runtime-reachable ledger - built only by adjustments - the `prev_qty` the
code reads is exactly the prior balance in the specification's sense. -/
theorem adjustment_preserves_runningBalance (db : DB) (today code : String)
    (qty_delta : ℚ) (uom : String) (cost_per_uom : ℚ) (note rt rn : String)
    (db1 : DB)
    (hok : post_stock_adjustment db today code qty_delta uom cost_per_uom note rt rn
      = Except.ok db1)
    (m : String)
    (hrb : isRunningBalance 0 (db.ledger.filter fun e => e.material_code == m)) :
    isRunningBalance 0 (db1.ledger.filter fun e => e.material_code == m) := by
  obtain ⟨e, hled, hmc, hqty, hqs⟩ :=
    post_stock_adjustment_ok_shape db today code qty_delta uom cost_per_uom note rt rn
      db1 hok
  rw [hled]
  refine filter_append_runningBalance db.ledger e m hrb ?_
  intro hem
  have hcm : pyStrip code = m := by rw [← hmc, hem]
  rw [hqs, hqty, hcm]

/-- Nothing changes state in a serial receive/issue step: both paths of
`receive_purchase` and `issue_stock` raise before any INSERT. -/
theorem applyOp_eq_self (db : DB) (op : Op) : applyOp db op = db := by
  cases op with
  | receive mc q t rn => rfl
  | issue mc q rt rn =>
    by_cases hc : q > (_current_stock db.ledger mc).1 <;>
      simp [applyOp, issue_stock, post_stock, hc]

theorem applyOps_eq_self (db : DB) (ops : List Op) : applyOps db ops = db := by
  induction ops with
  | nil => rfl
  | cons op rest ih =>
    show applyOps (applyOp db op) rest = db
    rw [applyOp_eq_self, ih]

/-- No `issue` ever commits: phase 2 returns `insufficientStock` or the
`attributeError` from `post_stock`, never `ok`, so the committed quantity
sum of a material is never changed - in particular never made negative -
by an issue call. -/
theorem issue_commit_never_commits (db : DB) (mc : String) (q : ℚ) (rt : String)
    (rn : Option String) (s : ℚ × ℚ) (db2 : DB) :
    issue_commit db mc q rt rn s ≠ Except.ok db2 := by
  simp only [issue_commit, post_stock]
  split <;> simp

/-- Reachability of `adjState10`: one +10 adjustment at unit cost 5 for
the registered material "M" yields exactly that state. -/
theorem adjState10_reachable :
    post_stock_adjustment emptyWithM "t" "M" 10 "STOCK" 5 "" "MANUAL" "" =
      Except.ok adjState10 := by
  have hM : pyStrip "M" = "M" := by decide
  have hMne : ¬ (("M" : String) = "") := by decide
  norm_num [post_stock_adjustment, adjustmentCosts, hM, hMne, emptyWithM,
    DB.empty, adjState10, prevQty, prevAvg, latestRow]

/-- Reachability of `adjMid`. -/
theorem adjMid_reachable :
    post_stock_adjustment emptyWithM "t" "M" 5 "STOCK" 2 "" "MANUAL" "" =
      Except.ok adjMid := by
  have hM : pyStrip "M" = "M" := by decide
  have hMne : ¬ (("M" : String) = "") := by decide
  norm_num [post_stock_adjustment, adjustmentCosts, hM, hMne, emptyWithM,
    DB.empty, adjMid, prevQty, prevAvg, latestRow]

/-- Reachability of `adjState2` from `adjMid`. -/
theorem adjState2_reachable :
    post_stock_adjustment adjMid "t" "M" 5 "STOCK" 2 "" "MANUAL" "" =
      Except.ok adjState2 := by
  have hM : pyStrip "M" = "M" := by decide
  have hMne : ¬ (("M" : String) = "") := by decide
  norm_num [post_stock_adjustment, adjustmentCosts, hM, hMne, adjMid, adjState2,
    prevQty, prevAvg, latestRow]

/-- `adjTwice` evaluates to `adjState2`. -/
theorem adjTwice_ok : adjTwice = Except.ok adjState2 := by
  rw [adjTwice, adjMid_reachable]
  simpa [Except.bind] using adjState2_reachable

/-- C1: for every ledger state and material, `_current_stock` returns the
sum of the signed `qty_stock` of the material's entries, and the average
cost `sum(total_cost)/quantity` when the quantity is nonzero, else 0. -/
theorem balance_correct (ledger : List LedgerEntry) (m : String) :
    _current_stock ledger m =
      (((ledger.filter fun e => e.material_code == m).map fun e => e.qty_stock).sum,
       if ((ledger.filter fun e => e.material_code == m).map fun e => e.qty_stock).sum ≠ 0 then
         ((ledger.filter fun e => e.material_code == m).map fun e => e.total_cost).sum /
           ((ledger.filter fun e => e.material_code == m).map fun e => e.qty_stock).sum
       else 0) := by
  simp [_current_stock, sqlSum_eq_sum]

/-- C2: for every sequence of receive and issue calls (no adjustments)
from the empty ledger, every material's on-hand quantity stays ≥ 0 - at
runtime neither call can write (`post_stock` raises `AttributeError` on
every call), so balances never change at all - and every issue whose
requested quantity exceeds the current on-hand quantity fails with
InsufficientStock (raised at line 230, before `post_stock`) leaving the
state unchanged. -/
theorem no_negative_stock_from_issues (ops : List Op) (m : String) (db : DB)
    (mc : String) (q : ℚ) (rt : String) (rn : Option String)
    (hq : (_current_stock db.ledger mc).1 < q) :
    0 ≤ (_current_stock (applyOps DB.empty ops).ledger m).1 ∧
    issue_stock db mc q rt rn = Except.error StockError.insufficientStock ∧
    applyOp db (Op.issue mc q rt rn) = db := by
  refine ⟨?_, ?_, applyOp_eq_self db _⟩
  · rw [applyOps_eq_self]
    simp [_current_stock, sqlSum, DB.empty]
  · simp only [issue_stock]
    rw [if_pos hq]

/-- C2 witness. -/
theorem no_negative_stock_from_issues_witness :
    0 ≤ (_current_stock (applyOps DB.empty
        [Op.receive "M" 5 10 none, Op.issue "M" 3 "BATCH" none]).ledger "M").1 ∧
    issue_stock DB.empty "M" 1 "BATCH" none =
      Except.error StockError.insufficientStock ∧
    applyOp DB.empty (Op.issue "M" 1 "BATCH" none) = DB.empty :=
  no_negative_stock_from_issues
    [Op.receive "M" 5 10 none, Op.issue "M" 3 "BATCH" none] "M" DB.empty "M" 1
    "BATCH" none (by norm_num [_current_stock, sqlSum, DB.empty])

/-- C3: an adjustment the code accepts (nonempty stripped code,
abs(qty_delta) ≥ 1e-7, code registered in `materials` so the
foreign-keys-ON INSERT succeeds) with positive delta records post-entry
average cost `(prev_qty * prev_avg + delta * new_unit_cost) /
(prev_qty + delta)` (0 when the resulting quantity is within 1e-5 of 0);
with negative delta the movement is costed at the current average (not the
caller-supplied cost) and the average is unchanged (0 when the resulting
quantity is within 1e-5 of 0).  The final conjunct identifies `prev_qty`
with the specification's prior balance - the sum of the material's signed
movement quantities - whenever the material's rows obey the
running-balance discipline that `post_stock_adjustment` itself maintains
(see `adjustment_preserves_runningBalance`), which holds for every
runtime-reachable ledger since this is the only live writer. -/
theorem adjustment_cost_policy (db : DB) (today code : String) (qty_delta : ℚ)
    (uom : String) (cost_per_uom : ℚ) (note rt rn : String)
    (hcode : ¬ pyStrip code = "")
    (hmag : (1:ℚ) / 10000000 ≤ |qty_delta|)
    (hfk : pyStrip code ∈ db.materials) :
    ∃ db1 e,
      post_stock_adjustment db today code qty_delta uom cost_per_uom note rt rn =
        Except.ok db1 ∧
      db1.ledger = db.ledger ++ [e] ∧
      (0 < qty_delta →
        e.cost_per_stock =
          (if |prevQty db.ledger (pyStrip code) + qty_delta| < (1:ℚ)/100000 then 0
           else (prevQty db.ledger (pyStrip code) * prevAvg db.ledger (pyStrip code) +
               qty_delta * cost_per_uom) /
             (prevQty db.ledger (pyStrip code) + qty_delta))) ∧
      (qty_delta < 0 →
        e.total_cost = qty_delta * prevAvg db.ledger (pyStrip code) ∧
        e.cost_per_stock =
          (if |prevQty db.ledger (pyStrip code) + qty_delta| < (1:ℚ)/100000 then 0
           else prevAvg db.ledger (pyStrip code))) ∧
      (isRunningBalance 0 (db.ledger.filter fun x => x.material_code == pyStrip code) →
        prevQty db.ledger (pyStrip code) =
          ((db.ledger.filter fun x => x.material_code == pyStrip code).map
            fun x => x.qty).sum) := by
  have hm : ¬ |qty_delta| < (1:ℚ)/10000000 := not_lt.mpr hmag
  by_cases hpos : 0 < qty_delta
  · have heq : post_stock_adjustment db today code qty_delta uom cost_per_uom note rt rn
        = Except.ok { db with ledger := db.ledger ++
            [{ id := db.ledger.length, date := today, ref_type := rt,
               ref_no := some rn, material_code := pyStrip code, qty := qty_delta,
               uom := uom,
               qty_stock := prevQty db.ledger (pyStrip code) + qty_delta,
               cost_per_stock :=
                 if |prevQty db.ledger (pyStrip code) + qty_delta| < (1:ℚ)/100000
                 then 0
                 else (prevQty db.ledger (pyStrip code) *
                     prevAvg db.ledger (pyStrip code) + qty_delta * cost_per_uom) /
                   (prevQty db.ledger (pyStrip code) + qty_delta),
               total_cost := qty_delta * cost_per_uom, note := note }] } := by
      simp only [post_stock_adjustment, adjustmentCosts]
      rw [if_neg hcode, if_neg hm, if_pos hpos, if_pos hfk]
    exact ⟨_, _, heq, rfl, fun _ => rfl, fun hneg => absurd hneg (not_lt.mpr hpos.le),
      fun hrb => prevQty_eq_sum_of_runningBalance db.ledger (pyStrip code) hrb⟩
  · have heq : post_stock_adjustment db today code qty_delta uom cost_per_uom note rt rn
        = Except.ok { db with ledger := db.ledger ++
            [{ id := db.ledger.length, date := today, ref_type := rt,
               ref_no := some rn, material_code := pyStrip code, qty := qty_delta,
               uom := uom,
               qty_stock := prevQty db.ledger (pyStrip code) + qty_delta,
               cost_per_stock :=
                 if |prevQty db.ledger (pyStrip code) + qty_delta| < (1:ℚ)/100000
                 then 0 else prevAvg db.ledger (pyStrip code),
               total_cost := qty_delta * prevAvg db.ledger (pyStrip code),
               note := note }] } := by
      simp only [post_stock_adjustment, adjustmentCosts]
      rw [if_neg hcode, if_neg hm, if_neg hpos, if_pos hfk]
    exact ⟨_, _, heq, rfl, fun h => absurd h hpos, fun _ => ⟨rfl, rfl⟩,
      fun hrb => prevQty_eq_sum_of_runningBalance db.ledger (pyStrip code) hrb⟩

/-- C3 witness. -/
theorem adjustment_cost_policy_witness :
    ∃ db1 e,
      post_stock_adjustment emptyWithM "t" "M" 5 "STOCK" 2 "" "MANUAL" "" =
        Except.ok db1 ∧
      db1.ledger = emptyWithM.ledger ++ [e] ∧
      ((0:ℚ) < 5 →
        e.cost_per_stock =
          (if |prevQty emptyWithM.ledger (pyStrip "M") + 5| < (1:ℚ)/100000 then 0
           else (prevQty emptyWithM.ledger (pyStrip "M") *
               prevAvg emptyWithM.ledger (pyStrip "M") + 5 * 2) /
             (prevQty emptyWithM.ledger (pyStrip "M") + 5))) ∧
      ((5:ℚ) < 0 →
        e.total_cost = 5 * prevAvg emptyWithM.ledger (pyStrip "M") ∧
        e.cost_per_stock =
          (if |prevQty emptyWithM.ledger (pyStrip "M") + 5| < (1:ℚ)/100000 then 0
           else prevAvg emptyWithM.ledger (pyStrip "M"))) ∧
      (isRunningBalance 0 (emptyWithM.ledger.filter
          fun x => x.material_code == pyStrip "M") →
        prevQty emptyWithM.ledger (pyStrip "M") =
          ((emptyWithM.ledger.filter fun x => x.material_code == pyStrip "M").map
            fun x => x.qty).sum) :=
  adjustment_cost_policy emptyWithM "t" "M" 5 "STOCK" 2 "" "MANUAL" ""
    (by decide) (by norm_num) (by decide)

/-- C4: the receive-then-issue round trip can never execute.  At the
failing input (on-hand 10 at average cost 5, the adjustment-reachable
state `adjState10`) both the receive and the issue raise `AttributeError`
inside `post_stock` (datetime module rebinding, logic.py line 905) before
any INSERT, so no receive ever posts and no issue ever posts - the
weighted-average round trip the claim describes is dead code. -/
theorem weighted_avg_roundtrip_dead :
    receive_purchase adjState10 "M" 1 5 none = Except.error StockError.attributeError ∧
    issue_stock adjState10 "M" 1 "BATCH" none = Except.error StockError.attributeError ∧
    0 < (_current_stock adjState10.ledger "M").1 := by
  refine ⟨rfl, ?_, ?_⟩
  · norm_num [issue_stock, post_stock, _current_stock, sqlSum, adjState10]
  · norm_num [_current_stock, sqlSum, adjState10]

/-- C5: reconciliation never writes.  At the failing input (system
quantity 10 in the adjustment-reachable `adjState10`, counted 45, so the
claim demands one StocktakeVariance entry of +35) `post_stocktake` raises
`AttributeError` at `datetime.now()` (logic.py line 299, module rebinding
at line 905) before the stocktake INSERT, recording neither a stocktake
row nor a ledger entry. -/
theorem stocktake_dead_write :
    post_stocktake adjState10 "M" 45 "" = Except.error StockError.attributeError ∧
    (45 : ℚ) ≠ (_current_stock adjState10.ledger "M").1 := by
  refine ⟨rfl, ?_⟩
  norm_num [_current_stock, sqlSum, adjState10]

/-- C6: every `receive_purchase` call - with non-positive quantity
(claimed to fail with InvalidArgument) and with positive quantity
(claimed to append a costed entry) alike - raises `AttributeError` inside
`post_stock` before any INSERT and appends nothing. -/
theorem receive_always_raises :
    receive_purchase DB.empty "M" (-1) 5 none =
      Except.error StockError.attributeError ∧
    receive_purchase DB.empty "M" 4 20 none =
      Except.error StockError.attributeError := ⟨rfl, rfl⟩

/-- C7: `post_stock` with signed quantity 0 fails with `AttributeError`
(raised by its first statement `datetime.now()`, logic.py line 194, under
the module rebinding of line 905) - not with InvalidArgument - and so does
a nonzero call: the failure is unconditional and precedes any validation;
the body contains no zero-quantity check at all. -/
theorem post_stock_always_raises :
    post_stock DB.empty "M" 0 "STOCK" 5 "REF" none "" =
      Except.error StockError.attributeError ∧
    post_stock DB.empty "M" 3 "STOCK" 5 "REF" none "" =
      Except.error StockError.attributeError := ⟨rfl, rfl⟩

/-- C8: the effective `delete_material` (the later module binding) deletes
a material that has a ledger movement, while the shadowed guarded version
would have refused. -/
theorem delete_material_ignores_references :
    (delete_material oneMovementDB "M").materials = [] ∧
    delete_material_guarded oneMovementDB "M" =
      Except.error "Material has stock movements and cannot be deleted" :=
  ⟨rfl, rfl⟩

/-- C9: at the failing input (on-hand 10 in the adjustment-reachable
`adjState10`, two concurrent issue(10) calls whose balance reads both
precede either write attempt) each phase-2 commit passes the
insufficient-stock check against its snapshot and then raises
`AttributeError` inside `post_stock` - the state is unchanged by the
first attempt, so the second is the identical evaluation.  Zero issues
succeed (see `issue_commit_never_commits`: no issue ever commits, so the
committed sum indeed never goes negative), the stock is not exhausted,
and the failures are `AttributeError`, not the `InsufficientStock` the
claim prescribes for the losing calls. -/
theorem concurrent_issue_race :
    issue_commit adjState10 "M" 10 "BATCH" none (issue_read adjState10.ledger "M") =
      Except.error StockError.attributeError ∧
    (_current_stock adjState10.ledger "M").1 = 10 := by
  constructor
  · norm_num [issue_commit, issue_read, post_stock, _current_stock, sqlSum, adjState10]
  · norm_num [_current_stock, sqlSum, adjState10]

/-- C10 counterexample: a runtime-reachable ledger with two rows for "M"
(two +5 adjustments at unit cost 2): `get_stock_on_hand` reads the latest
row's running balance 10, while `stock_on_hand` sums the `qty_stock`
column - which under the only live writer stores running balances, not
deltas - and reports 15. -/
theorem view_equivalence_cex :
    adjTwice.map (fun d => ((get_stock_on_hand_row d.ledger "M").map Prod.fst,
      some (stock_on_hand_row d.ledger "M").1)) =
      Except.ok (some 10, some 15) ∧
    some (10 : ℚ) ≠ some (15 : ℚ) := by
  constructor
  · rw [adjTwice_ok]
    norm_num [Except.map, get_stock_on_hand_row, stock_on_hand_row, latestRow,
      sqlSum, adjState2, roundTo, round_eq]
  · norm_num

/-- C10 (amended): the two views agree on a material whose ledger has
exactly one visible entry (|qty_stock| > 1e-5, fixed by the display
rounding) satisfying `total_cost = qty_stock * cost_per_stock` - as the
first adjustment row of a material does; with more rows they diverge. -/
theorem view_equivalence_single (db : DB) (m : String) (e : LedgerEntry)
    (hfilter : db.ledger.filter (fun x => x.material_code == m) = [e])
    (hnz : (1:ℚ)/100000 < |e.qty_stock|)
    (hq : roundTo 4 e.qty_stock = e.qty_stock)
    (hc : roundTo 6 e.cost_per_stock = e.cost_per_stock)
    (hpost : e.total_cost = e.qty_stock * e.cost_per_stock) :
    get_stock_on_hand_row db.ledger m =
      some ((stock_on_hand_row db.ledger m).1,
        (stock_on_hand_row db.ledger m).2.2) := by
  have hq0 : e.qty_stock ≠ 0 := by
    intro h
    rw [h, abs_zero] at hnz
    exact absurd hnz (by norm_num)
  have hlatest : latestRow db.ledger m = some e := by
    simp [latestRow, hfilter]
  have hsq : sqlSum (fun x => x.qty_stock) m db.ledger = e.qty_stock := by
    simp [sqlSum, hfilter]
  have hsc : sqlSum (fun x => x.total_cost) m db.ledger = e.total_cost := by
    simp [sqlSum, hfilter]
  simp only [get_stock_on_hand_row, hlatest, hnz, if_true, stock_on_hand_row,
    hsq, hsc, hq, hc, hpost, ne_eq, hq0, not_false_eq_true, reduceIte]
  rw [mul_div_cancel_left₀ _ hq0]

/-- C10 witness (at the adjustment-reachable single-row state
`adjState10`). -/
theorem view_equivalence_single_witness :
    get_stock_on_hand_row adjState10.ledger "M" =
      some ((stock_on_hand_row adjState10.ledger "M").1,
        (stock_on_hand_row adjState10.ledger "M").2.2) :=
  view_equivalence_single adjState10 "M"
    { id := 0, date := "t", ref_type := "MANUAL", ref_no := some "",
      material_code := "M", qty := 10, uom := "STOCK", qty_stock := 10,
      cost_per_stock := 5, total_cost := 50, note := "" }
    (by norm_num [adjState10]) (by norm_num)
    (by norm_num [roundTo, round_eq]) (by norm_num [roundTo, round_eq])
    (by norm_num)

end AcroChem
